import Mathlib

/-!
Verification of the cNVMe controller command-processing engine.

The repository ships `Controller.h` (the controller's data members and the
declarations of its operations) and `Main.cpp` (a manual harness).  The
implementation file for the controller is not part of the source tree, so the
behavior of every operation below is modelled from the specification
(`spec.md`), using the names and data members declared in `Controller.h`.
Machine integers are modelled as `Nat` with explicit `% 2^w` extraction of
bit fields where it matters; `std::map` and `std::set` members are modelled
as association lists / lists; the host-memory payload mechanism is external
to the controller and is modelled at its interface boundary only.
-/

set_option maxHeartbeats 1000000

namespace cnvme

/-- Queue id 0 is the always-present admin pair (ADMIN_QUEUE_ID in Controller.h). -/
def ADMIN_QUEUE_ID : Nat := 0

/-- Largest usable command identifier (MAX_COMMAND_IDENTIFIER in Controller.h). -/
def MAX_COMMAND_IDENTIFIER : Nat := 0xFFFF

/-- Largest usable queue identifier (MAX_SUBMISSION_QUEUES in Controller.h). -/
def MAX_SUBMISSION_QUEUES : Nat := 0xFFFF

/-- Fixed-size NVMe command entry: opcode, command id, namespace id, two
data-pointer fields, and command-specific double-word arguments (spec section 6). -/
structure NVME_COMMAND where
  OPC : Nat
  CID : Nat
  NSID : Nat
  DPTR1 : Nat
  DPTR2 : Nat
  DWord10 : Nat
  DWord11 : Nat
deriving DecidableEq

/-- Fixed-size completion-queue entry: result double-word, submission-queue
head, submission-queue id, command id, phase bit, and status fields
(spec section 6). -/
structure COMPLETION_QUEUE_ENTRY where
  DWord0 : Nat
  SQHD : Nat
  SQID : Nat
  CID : Nat
  P : Bool
  SCT : Nat
  SC : Nat
deriving DecidableEq

/-- A completion entry succeeded when both status fields are zero; any
non-zero status field marks an error completion (spec section 7). -/
def COMPLETION_QUEUE_ENTRY.isSuccessful (e : COMPLETION_QUEUE_ENTRY) : Bool :=
  e.SCT == 0 && e.SC == 0

/-- Completion entry template with the given status fields and every other
field zeroed, as handlers receive their completion-entry-to-post. -/
def makeStatus (sct sc : Nat) : COMPLETION_QUEUE_ENTRY :=
  { DWord0 := 0, SQHD := 0, SQID := 0, CID := 0, P := false, SCT := sct, SC := sc }

/-- A queue (data model of spec section 3): unique 16-bit id, depth (slot
count), current head and tail, and, for a submission queue, the id of its
paired completion queue. -/
structure Queue where
  id : Nat
  queueSize : Nat
  head : Nat
  tail : Nat
  linkedQueueId : Nat
deriving DecidableEq

/-- A namespace object; its block contents are external to the controller
core (spec section 1), only its identity and size metadata are carried. -/
structure Namespace where
  sizeInSectors : Nat
deriving DecidableEq

/-- The controller state: the data members declared in Controller.h.
`std::vector<Queue*>` members are lists of queues, the `std::map`/`std::set`
members are association lists, and the CRAPI-F file path is a string. -/
structure Controller where
  ValidSubmissionQueues : List Queue
  ValidCompletionQueues : List Queue
  SubmissionQueueIdToCommandIdentifiers : List (Nat × List Nat)
  QueueToPhaseTag : List (Nat × Bool)
  NamespaceIdToActiveNamespace : List (Nat × Namespace)
  NamespaceIdToInactiveNamespace : List (Nat × Namespace)
  FirmwareImageDWordOffsetToData : List (Nat × Nat)
  FirmwareSlotInfo : Nat
  CommandResponseApiFilePath : String

/-- Returns the first queue matching the given id (getQueueWithId in
Controller.h). -/
def getQueueWithId (queues : List Queue) (id : Nat) : Option Queue :=
  queues.find? (fun q => q.id == id)

/-- Writes the given (mutated) queue back over every stored queue bearing its
id, modelling mutation through the C++ reference into the valid-queues
collection. -/
def replaceQueueWithId (queues : List Queue) (q : Queue) : List Queue :=
  queues.map (fun x => if x.id == q.id then q else x)

/-- Looks up the set of outstanding command identifiers recorded for a
submission queue id (empty when the queue id has no entry). -/
def lookupCommandIdentifiers (m : List (Nat × List Nat)) (sqid : Nat) : List Nat :=
  match m with
  | [] => []
  | p :: rest => if p.1 == sqid then p.2 else lookupCommandIdentifiers rest sqid

/-- Removes one command identifier from the outstanding set of a submission
queue id, modelling `std::set::erase` on the mapped set. -/
def eraseCommandIdentifier (m : List (Nat × List Nat)) (sqid cid : Nat) :
    List (Nat × List Nat) :=
  match m with
  | [] => []
  | p :: rest =>
    if p.1 == sqid then (p.1, p.2.filter (fun x => x != cid)) :: rest
    else p :: eraseCommandIdentifier rest sqid cid

/-- Records a command identifier as outstanding for a submission queue id,
modelling `std::set::insert` on the mapped set. -/
def insertCommandIdentifier (m : List (Nat × List Nat)) (sqid cid : Nat) :
    List (Nat × List Nat) :=
  match m with
  | [] => [(sqid, [cid])]
  | p :: rest =>
    if p.1 == sqid then (p.1, cid :: p.2) :: rest
    else p :: insertCommandIdentifier rest sqid cid

/-- Looks up the recorded phase tag of a completion queue id (QueueToPhaseTag
in Controller.h); a queue with no recorded tag reads as false. -/
def lookupPhaseTag (m : List (Nat × Bool)) (qid : Nat) : Bool :=
  match m with
  | [] => false
  | p :: rest => if p.1 == qid then p.2 else lookupPhaseTag rest qid

/-- Records a new phase tag value for a completion queue id. -/
def setPhaseTag (m : List (Nat × Bool)) (qid : Nat) (b : Bool) :
    List (Nat × Bool) :=
  match m with
  | [] => [(qid, b)]
  | p :: rest =>
    if p.1 == qid then (p.1, b) :: rest
    else p :: setPhaseTag rest qid b

/-- Modelled from the spec: isValidCommandIdentifier is declared in
Controller.h but its body (Controller.cpp) is not in the source tree.
Per spec section 4.3 a command identifier is valid for a submission queue
exactly when it is not already outstanding on that queue. -/
def isValidCommandIdentifier (c : Controller) (commandId submissionQueueId : Nat) : Bool :=
  !(decide (commandId ∈
      lookupCommandIdentifiers c.SubmissionQueueIdToCommandIdentifiers submissionQueueId))

/-- Modelled from the spec: postCompletion is declared in Controller.h but its
body (Controller.cpp) is not in the source tree.  Per spec section 4.4 the
controller overwrites the entry's queue-identifier field with the originating
submission-queue id, its queue-head field with that queue's head, and its
command-identifier field with the command's id; advances and wraps the
completion queue's tail; flips the queue's phase tag exactly when the tail
wraps past the last slot back to slot 0; sets the entry's phase bit to the
(possibly just-flipped) value; and removes the command id from the
outstanding set of its submission queue.  Returns the new controller state,
the advanced completion queue, and the entry as written to host memory. -/
def postCompletion (c : Controller) (completionQueue : Queue)
    (completionEntry : COMPLETION_QUEUE_ENTRY) (command : NVME_COMMAND)
    (submissionQueue : Queue) : Controller × Queue × COMPLETION_QUEUE_ENTRY :=
  let entryFilled := { completionEntry with
    SQID := submissionQueue.id
    SQHD := submissionQueue.head
    CID := command.CID }
  let newTail := (completionQueue.tail + 1) % completionQueue.queueSize
  let oldTag := lookupPhaseTag c.QueueToPhaseTag completionQueue.id
  let newTag := if newTail == 0 then !oldTag else oldTag
  let entryPosted := { entryFilled with P := newTag }
  let advancedQueue := { completionQueue with tail := newTail }
  ({ c with
      ValidCompletionQueues := replaceQueueWithId c.ValidCompletionQueues advancedQueue
      QueueToPhaseTag := setPhaseTag c.QueueToPhaseTag completionQueue.id newTag
      SubmissionQueueIdToCommandIdentifiers :=
        eraseCommandIdentifier c.SubmissionQueueIdToCommandIdentifiers
          submissionQueue.id command.CID },
   advancedQueue, entryPosted)

/-- Queue id requested by a create/delete-queue command: the low 16 bits of
DWord10 (spec section 6 command format). -/
def NVME_COMMAND.requestedQueueId (command : NVME_COMMAND) : Nat :=
  command.DWord10 % 65536

/-- Queue depth requested by a create-queue command: the high 16 bits of
DWord10. -/
def NVME_COMMAND.requestedQueueSize (command : NVME_COMMAND) : Nat :=
  command.DWord10 / 65536 % 65536

/-- Paired completion queue id of a create-submission-queue command: the high
16 bits of DWord11. -/
def NVME_COMMAND.pairedCompletionQueueId (command : NVME_COMMAND) : Nat :=
  command.DWord11 / 65536 % 65536

/-- Capacity, in 4-byte identifiers, of the identify transfer buffer (one
4096-byte identify payload). -/
def IDENTIFY_LIST_CAPACITY : Nat := 1024

/-- Modelled from the spec: getNamespaceListFromMap is declared in
Controller.h but its body (Controller.cpp) is not in the source tree.  Per
spec sections 4.3 and 8 it emits the namespace ids of the map that are
greater than the starting id, as 4-byte identifiers in ascending id order
(a `std::map` iterates in ascending key order), stopping at list capacity or
map exhaustion and zero-padding the remainder of the buffer. -/
def getNamespaceListFromMap (namespaceMap : List (Nat × Namespace))
    (startingNsid : Nat) (listCapacity : Nat) : List Nat :=
  let matchingIds :=
    (namespaceMap.map Prod.fst).filter (fun nsid => decide (startingNsid < nsid))
  let taken := matchingIds.take listCapacity
  taken ++ List.replicate (listCapacity - taken.length) 0

/-- Modelled from the spec: getAllocatedNamespaceMap is declared in
Controller.h but its body (Controller.cpp) is not in the source tree.  It
returns a by-value map of all namespaces, active or inactive. -/
def getAllocatedNamespaceMap (c : Controller) : List (Nat × Namespace) :=
  c.NamespaceIdToActiveNamespace ++ c.NamespaceIdToInactiveNamespace

/-- Modelled from the spec: adminIdentify is declared in Controller.h but its
body (Controller.cpp) is not in the source tree.  Per spec section 4.3 the
sub-command code selects controller, namespace, or namespace-list identify
data; the selected structure or list payload is written to the command's
data buffer through the external payload mechanism (out of the controller
model), and no controller state is mutated.  An unknown sub-command code
yields an invalid-field error completion. -/
def adminIdentify (c : Controller) (command : NVME_COMMAND) :
    Controller × COMPLETION_QUEUE_ENTRY :=
  let cns := command.DWord10 % 256
  let entry :=
    if cns == 0 then makeStatus 0 0
    else if cns == 1 then makeStatus 0 0
    else if cns == 2 then
      let _nsListPayload := getNamespaceListFromMap c.NamespaceIdToActiveNamespace
        command.NSID IDENTIFY_LIST_CAPACITY
      makeStatus 0 0
    else if cns == 16 then
      let _nsListPayload := getNamespaceListFromMap (getAllocatedNamespaceMap c)
        command.NSID IDENTIFY_LIST_CAPACITY
      makeStatus 0 0
    else makeStatus 0 2
  (c, entry)

/-- Modelled from the spec: adminCreateIoCompletionQueue is declared in
Controller.h but its body (Controller.cpp) is not in the source tree.  Per
spec section 4.3 it allocates a new queue with the requested id and depth and
records its phase tag as false, failing with an error completion and no state
change when the id is already valid or exceeds the maximum of 0xFFFF. -/
def adminCreateIoCompletionQueue (c : Controller) (command : NVME_COMMAND) :
    Controller × COMPLETION_QUEUE_ENTRY :=
  let qid := command.requestedQueueId
  if (getQueueWithId c.ValidCompletionQueues qid).isSome
      || decide (qid > MAX_SUBMISSION_QUEUES) then
    (c, makeStatus 1 1)
  else
    ({ c with
        ValidCompletionQueues :=
          c.ValidCompletionQueues ++ [Queue.mk qid command.requestedQueueSize 0 0 0]
        QueueToPhaseTag := setPhaseTag c.QueueToPhaseTag qid false },
     makeStatus 0 0)

/-- Modelled from the spec: adminCreateIoSubmissionQueue is declared in
Controller.h but its body (Controller.cpp) is not in the source tree.  Per
spec section 4.3 it allocates a new submission queue with the requested id
and depth, paired to the requested completion queue, failing with an error
completion and no state change when the id is already valid, exceeds the
maximum of 0xFFFF, or the paired completion queue id is not currently
valid. -/
def adminCreateIoSubmissionQueue (c : Controller) (command : NVME_COMMAND) :
    Controller × COMPLETION_QUEUE_ENTRY :=
  let qid := command.requestedQueueId
  let pairedCqId := command.pairedCompletionQueueId
  if (getQueueWithId c.ValidSubmissionQueues qid).isSome
      || decide (qid > MAX_SUBMISSION_QUEUES)
      || !(getQueueWithId c.ValidCompletionQueues pairedCqId).isSome then
    (c, makeStatus 1 1)
  else
    ({ c with
        ValidSubmissionQueues :=
          c.ValidSubmissionQueues
            ++ [Queue.mk qid command.requestedQueueSize 0 0 pairedCqId] },
     makeStatus 0 0)

/-- Modelled from the spec: adminDeleteIoCompletionQueue is declared in
Controller.h but its body (Controller.cpp) is not in the source tree.  Per
spec section 4.3 it fails with an error completion and no state change when
the queue id does not exist or any valid submission queue still references
it; otherwise it removes the queue from the valid set. -/
def adminDeleteIoCompletionQueue (c : Controller) (command : NVME_COMMAND) :
    Controller × COMPLETION_QUEUE_ENTRY :=
  let qid := command.requestedQueueId
  if !(getQueueWithId c.ValidCompletionQueues qid).isSome then
    (c, makeStatus 1 1)
  else if c.ValidSubmissionQueues.any (fun sq => sq.linkedQueueId == qid) then
    (c, makeStatus 1 12)
  else
    ({ c with
        ValidCompletionQueues := c.ValidCompletionQueues.filter (fun q => q.id != qid) },
     makeStatus 0 0)

/-- Modelled from the spec: adminDeleteIoSubmissionQueue is declared in
Controller.h but its body (Controller.cpp) is not in the source tree.  Per
spec section 4.3 it fails with an error completion and no state change when
the queue id does not exist; otherwise it removes the queue from the valid
set and clears its command-identifier set. -/
def adminDeleteIoSubmissionQueue (c : Controller) (command : NVME_COMMAND) :
    Controller × COMPLETION_QUEUE_ENTRY :=
  let qid := command.requestedQueueId
  if !(getQueueWithId c.ValidSubmissionQueues qid).isSome then
    (c, makeStatus 1 1)
  else
    ({ c with
        ValidSubmissionQueues := c.ValidSubmissionQueues.filter (fun q => q.id != qid)
        SubmissionQueueIdToCommandIdentifiers :=
          c.SubmissionQueueIdToCommandIdentifiers.filter (fun p => p.1 != qid) },
     makeStatus 0 0)

/-- Modelled from the spec: adminFirmwareImageDownload is declared in
Controller.h but its body (Controller.cpp) is not in the source tree.  Per
spec section 4.3 it stores the command's payload (external host memory,
abstracted here to its data-pointer token) at the given double-word offset,
overwriting an overlapping offset. -/
def adminFirmwareImageDownload (c : Controller) (command : NVME_COMMAND) :
    Controller × COMPLETION_QUEUE_ENTRY :=
  let offset := command.DWord11
  ({ c with
      FirmwareImageDWordOffsetToData :=
        (offset, command.DPTR1)
          :: c.FirmwareImageDWordOffsetToData.filter (fun p => p.1 != offset) },
   makeStatus 0 0)

/-- Modelled from the spec: adminFirmwareCommit is declared in Controller.h
but its body (Controller.cpp) is not in the source tree.  Per spec section
4.3 it makes the accumulated firmware-store contents the running firmware for
the designated slot, updates slot info, and clears the store; an invalid slot
yields an error completion and no state change. -/
def adminFirmwareCommit (c : Controller) (command : NVME_COMMAND) :
    Controller × COMPLETION_QUEUE_ENTRY :=
  let slot := command.DWord10 % 8
  if slot == 0 then
    (c, makeStatus 1 6)
  else
    ({ c with FirmwareImageDWordOffsetToData := [], FirmwareSlotInfo := slot },
     makeStatus 0 0)

/-- Modelled from the spec: adminFormatNvm is declared in Controller.h but its
body (Controller.cpp) is not in the source tree.  Per spec section 4.3 it
conceptually discards the target namespace's content (block data is external
to the controller core) and keeps the namespace in the active map; an invalid
namespace id yields an error completion. -/
def adminFormatNvm (c : Controller) (command : NVME_COMMAND) :
    Controller × COMPLETION_QUEUE_ENTRY :=
  if command.NSID == 0xFFFFFFFF
      || (c.NamespaceIdToActiveNamespace.find? (fun p => p.1 == command.NSID)).isSome then
    (c, makeStatus 0 0)
  else (c, makeStatus 0 11)

/-- Modelled from the spec: adminKeepAlive is declared in Controller.h but its
body (Controller.cpp) is not in the source tree.  Per spec section 4.3 it
posts a success completion and changes no state. -/
def adminKeepAlive (c : Controller) (_command : NVME_COMMAND) :
    Controller × COMPLETION_QUEUE_ENTRY :=
  (c, makeStatus 0 0)

/-- Modelled from the spec: nvmFlush is declared in Controller.h but its body
(Controller.cpp) is not in the source tree.  Per spec section 4.3 flush is a
no-op success. -/
def nvmFlush (c : Controller) (_command : NVME_COMMAND) :
    Controller × COMPLETION_QUEUE_ENTRY :=
  (c, makeStatus 0 0)

/-- Modelled from the spec: nvmRead is declared in Controller.h but its body
(Controller.cpp) is not in the source tree.  Read operates on the external
namespace data abstraction (out of the controller model); an unknown
namespace id yields an error completion, and controller state is not
mutated. -/
def nvmRead (c : Controller) (command : NVME_COMMAND) :
    Controller × COMPLETION_QUEUE_ENTRY :=
  if (c.NamespaceIdToActiveNamespace.find? (fun p => p.1 == command.NSID)).isSome then
    (c, makeStatus 0 0)
  else (c, makeStatus 0 11)

/-- Modelled from the spec: nvmWrite is declared in Controller.h but its body
(Controller.cpp) is not in the source tree.  Write operates on the external
namespace data abstraction (out of the controller model); an unknown
namespace id yields an error completion, and controller state is not
mutated. -/
def nvmWrite (c : Controller) (command : NVME_COMMAND) :
    Controller × COMPLETION_QUEUE_ENTRY :=
  if (c.NamespaceIdToActiveNamespace.find? (fun p => p.1 == command.NSID)).isSome then
    (c, makeStatus 0 0)
  else (c, makeStatus 0 11)

/-- Type of an opcode handler (NVMeCaller in Controller.h): the command and a
mutable completion-entry-to-post, acting on the controller state. -/
def NVMeCaller : Type :=
  Controller → NVME_COMMAND → Controller × COMPLETION_QUEUE_ENTRY

/-- Static map from admin opcode to handler (AdminCommandCallers in
Controller.h, opcode assignments from spec section 6). -/
def AdminCommandCallers : List (Nat × NVMeCaller) :=
  [(0x00, adminDeleteIoSubmissionQueue),
   (0x01, adminCreateIoSubmissionQueue),
   (0x04, adminDeleteIoCompletionQueue),
   (0x05, adminCreateIoCompletionQueue),
   (0x06, adminIdentify),
   (0x10, adminFirmwareCommit),
   (0x11, adminFirmwareImageDownload),
   (0x18, adminKeepAlive),
   (0x80, adminFormatNvm)]

/-- Static map from NVM (I/O) opcode to handler (NVMCommandCallers in
Controller.h, opcode assignments from spec section 6). -/
def NVMCommandCallers : List (Nat × NVMeCaller) :=
  [(0x00, nvmFlush),
   (0x01, nvmWrite),
   (0x02, nvmRead)]

/-- Modelled from the spec: handledByCommandResponseApiFile is declared in
Controller.h but its body (Controller.cpp) is not in the source tree.  When a
CRAPI-F file path is configured, every command is first offered to the
external responder (modelled as the function argument, since the file
interaction is a collaborator implementation detail); with no path
configured the hook declines every command.  Returns the override completion
when the command was handled. -/
def handledByCommandResponseApiFile
    (crapiFile : NVME_COMMAND → Option COMPLETION_QUEUE_ENTRY)
    (c : Controller) (nvmeCommand : NVME_COMMAND) (_SQID : Nat) :
    Option COMPLETION_QUEUE_ENTRY :=
  if c.CommandResponseApiFilePath == "" then none
  else crapiFile nvmeCommand

/-- Modelled from the spec: the dispatch step of command processing (spec
section 4.3).  Commands arriving on submission queue 0 use the admin table;
all others use the NVM table.  An opcode absent from the applicable table
yields a completion with the invalid-command-opcode status (status code 1)
and no other side effect. -/
def dispatchBuiltin (c : Controller) (submissionQueueId : Nat)
    (command : NVME_COMMAND) : Controller × COMPLETION_QUEUE_ENTRY :=
  let callers :=
    if submissionQueueId == ADMIN_QUEUE_ID then AdminCommandCallers
    else NVMCommandCallers
  match callers.find? (fun p => p.1 == command.OPC) with
  | none => (c, makeStatus 0 1)
  | some caller => caller.2 c command

/-- Modelled from the spec: processCommandAndPostCompletion is declared in
Controller.h but its body (Controller.cpp) is not in the source tree.  Per
spec sections 4.2 to 4.4 it drains the command from the submission queue
(advancing the queue's head with wrap), rejects a duplicate command
identifier with an error completion without executing the command, otherwise
offers the command to the CRAPI-F hook and then dispatches it through the
opcode tables, records the identifier as outstanding, and posts exactly one
completion to the submission queue's paired completion queue.  The returned
list collects the (completion queue id, entry) postings performed; a missing
paired completion queue is an internal invariant violation (spec section 7)
on which nothing can be posted. -/
def processCommandAndPostCompletion
    (crapiFile : NVME_COMMAND → Option COMPLETION_QUEUE_ENTRY)
    (c : Controller) (submissionQueue : Queue) (command : NVME_COMMAND) :
    Controller × Queue × List (Nat × COMPLETION_QUEUE_ENTRY) :=
  let drainedQueue :=
    { submissionQueue with
        head := (submissionQueue.head + 1) % submissionQueue.queueSize }
  match getQueueWithId c.ValidCompletionQueues submissionQueue.linkedQueueId with
  | none => (c, drainedQueue, [])
  | some completionQueue =>
    if !(isValidCommandIdentifier c command.CID submissionQueue.id) then
      let posted := postCompletion c completionQueue (makeStatus 0 3) command drainedQueue
      (posted.1, drainedQueue, [(completionQueue.id, posted.2.2)])
    else
      let handled :=
        match handledByCommandResponseApiFile crapiFile c command submissionQueue.id with
        | some entry => (c, entry)
        | none => dispatchBuiltin c submissionQueue.id command
      let inserted :=
        { handled.1 with
            SubmissionQueueIdToCommandIdentifiers :=
              insertCommandIdentifier handled.1.SubmissionQueueIdToCommandIdentifiers
                submissionQueue.id command.CID }
      let posted := postCompletion inserted completionQueue handled.2 command drainedQueue
      (posted.1, drainedQueue, [(completionQueue.id, posted.2.2)])

/-- Command processing with the CRAPI-F hook absent, written from the spec's
words for the refinement claim: identical draining, validation, dispatch and
posting, but no command is ever offered to an external responder.  To be
compared with processCommandAndPostCompletion when no file path is
configured. -/
def processCommandWithoutCommandResponseApi
    (c : Controller) (submissionQueue : Queue) (command : NVME_COMMAND) :
    Controller × Queue × List (Nat × COMPLETION_QUEUE_ENTRY) :=
  let drainedQueue :=
    { submissionQueue with
        head := (submissionQueue.head + 1) % submissionQueue.queueSize }
  match getQueueWithId c.ValidCompletionQueues submissionQueue.linkedQueueId with
  | none => (c, drainedQueue, [])
  | some completionQueue =>
    if !(isValidCommandIdentifier c command.CID submissionQueue.id) then
      let posted := postCompletion c completionQueue (makeStatus 0 3) command drainedQueue
      (posted.1, drainedQueue, [(completionQueue.id, posted.2.2)])
    else
      let handled := dispatchBuiltin c submissionQueue.id command
      let inserted :=
        { handled.1 with
            SubmissionQueueIdToCommandIdentifiers :=
              insertCommandIdentifier handled.1.SubmissionQueueIdToCommandIdentifiers
                submissionQueue.id command.CID }
      let posted := postCompletion inserted completionQueue handled.2 command drainedQueue
      (posted.1, drainedQueue, [(completionQueue.id, posted.2.2)])

/-- Modelled from the spec: setCommandResponseFilePath is declared in
Controller.h but its body (Controller.cpp) is not in the source tree.  It
records the CRAPI-F file path (spec glossary). -/
def setCommandResponseFilePath (c : Controller) (filePath : String) : Controller :=
  { c with CommandResponseApiFilePath := filePath }

/-- Modelled from the spec: controller construction (spec section 4.1) sets
queue 0 (the admin submission/completion pair, with the register-configured
depths) as valid with phase tag false, and leaves command-identifier
tracking, namespace maps and the firmware store empty; no CRAPI-F path is
configured. -/
def Controller.construct (adminSubmissionQueueSize adminCompletionQueueSize : Nat) :
    Controller :=
  { ValidSubmissionQueues :=
      [Queue.mk ADMIN_QUEUE_ID adminSubmissionQueueSize 0 0 ADMIN_QUEUE_ID]
    ValidCompletionQueues :=
      [Queue.mk ADMIN_QUEUE_ID adminCompletionQueueSize 0 0 0]
    SubmissionQueueIdToCommandIdentifiers := []
    QueueToPhaseTag := [(ADMIN_QUEUE_ID, false)]
    NamespaceIdToActiveNamespace := []
    NamespaceIdToInactiveNamespace := []
    FirmwareImageDWordOffsetToData := []
    FirmwareSlotInfo := 1
    CommandResponseApiFilePath := "" }

/-- Iterated completion posting on one completion queue: the n-fold
application of postCompletion, threading the controller state and the queue,
and collecting the entries written, first posting first. -/
def postCompletionRepeated (c : Controller) (completionQueue : Queue)
    (completionEntry : COMPLETION_QUEUE_ENTRY) (command : NVME_COMMAND)
    (submissionQueue : Queue) : Nat → Controller × Queue × List COMPLETION_QUEUE_ENTRY
  | 0 => (c, completionQueue, [])
  | n + 1 =>
    let prev := postCompletionRepeated c completionQueue completionEntry command
      submissionQueue n
    let step := postCompletion prev.1 prev.2.1 completionEntry command submissionQueue
    (step.1, step.2.1, prev.2.2 ++ [step.2.2])

/-! ### Helper lemmas about the association-list operations -/

theorem lookupPhaseTag_setPhaseTag_self (m : List (Nat × Bool)) (qid : Nat) (b : Bool) :
    lookupPhaseTag (setPhaseTag m qid b) qid = b := by
  induction m with
  | nil => simp [setPhaseTag, lookupPhaseTag]
  | cons p rest ih =>
    by_cases h : p.1 = qid
    · simp [setPhaseTag, lookupPhaseTag, h]
    · simp [setPhaseTag, lookupPhaseTag, h, ih]

theorem lookupCommandIdentifiers_erase_self (m : List (Nat × List Nat)) (sqid cid : Nat) :
    lookupCommandIdentifiers (eraseCommandIdentifier m sqid cid) sqid
      = (lookupCommandIdentifiers m sqid).filter (fun x => x != cid) := by
  induction m with
  | nil => simp [eraseCommandIdentifier, lookupCommandIdentifiers]
  | cons p rest ih =>
    by_cases h : p.1 = sqid
    · simp [eraseCommandIdentifier, lookupCommandIdentifiers, h]
    · simp [eraseCommandIdentifier, lookupCommandIdentifiers, h, ih]

theorem notMem_filter_bne_self (l : List Nat) (cid : Nat) :
    cid ∉ l.filter (fun x => x != cid) := by
  simp [List.mem_filter]

theorem getQueueWithId_filter_ne_self (l : List Queue) (i : Nat) :
    getQueueWithId (l.filter (fun q => q.id != i)) i = none := by
  unfold getQueueWithId
  rw [List.find?_eq_none]
  intro x hx
  simp only [List.mem_filter, bne_iff_ne, ne_eq] at hx
  simp [hx.2]

theorem lookupCommandIdentifiers_filter_ne_self (m : List (Nat × List Nat)) (s : Nat) :
    lookupCommandIdentifiers (m.filter (fun p => p.1 != s)) s = [] := by
  induction m with
  | nil => rfl
  | cons p rest ih =>
    by_cases h : p.1 = s
    · simp [List.filter_cons, h, ih]
    · simp [List.filter_cons, lookupCommandIdentifiers, h, ih]

theorem getQueueWithId_append_singleton_of_none (l : List Queue) (q : Queue)
    (h : getQueueWithId l q.id = none) : getQueueWithId (l ++ [q]) q.id = some q := by
  unfold getQueueWithId at *
  rw [List.find?_append, h]
  simp [Option.or]

theorem adminCreateIoSubmissionQueue_fails_of_id_valid (c : Controller)
    (cmd : NVME_COMMAND)
    (h : (getQueueWithId c.ValidSubmissionQueues cmd.requestedQueueId).isSome = true) :
    adminCreateIoSubmissionQueue c cmd = (c, makeStatus 1 1) := by
  unfold adminCreateIoSubmissionQueue
  rw [if_pos (by rw [h]; simp)]

theorem phase_flip_parity (D n : Nat) :
    (if ((n + 1) % D == 0) then !(decide (n / D % 2 = 1)) else decide (n / D % 2 = 1))
      = decide ((n + 1) / D % 2 = 1) := by
  by_cases h : D ∣ (n + 1)
  · have h0 : (n + 1) % D = 0 := by
      obtain ⟨k, hk⟩ := h
      simp [hk, Nat.mul_mod_right]
    rcases Nat.mod_two_eq_zero_or_one (n / D) with h2 | h2
    · simp [h0, Nat.succ_div, h, h2, Nat.add_mod]
    · simp [h0, Nat.succ_div, h, h2, Nat.add_mod]
  · have h0 : (n + 1) % D ≠ 0 := fun hc => h (Nat.dvd_of_mod_eq_zero hc)
    simp [h0, Nat.succ_div, h]

theorem postCompletionRepeated_invariant (c : Controller) (qid qsz qh ql : Nat)
    (e : COMPLETION_QUEUE_ENTRY) (cmd : NVME_COMMAND) (sq : Queue) (n : Nat)
    (htag : lookupPhaseTag c.QueueToPhaseTag qid = false) :
    (postCompletionRepeated c (Queue.mk qid qsz qh 0 ql) e cmd sq n).2.1
        = Queue.mk qid qsz qh (n % qsz) ql
      ∧ lookupPhaseTag
          (postCompletionRepeated c (Queue.mk qid qsz qh 0 ql) e cmd sq n).1.QueueToPhaseTag
          qid
        = decide (n / qsz % 2 = 1)
      ∧ (postCompletionRepeated c (Queue.mk qid qsz qh 0 ql) e cmd sq n).2.2
        = (List.range n).map (fun i =>
            { e with SQID := sq.id, SQHD := sq.head, CID := cmd.CID,
                     P := decide ((i + 1) / qsz % 2 = 1) }) := by
  induction n with
  | zero =>
    refine ⟨by simp [postCompletionRepeated], ?_, by simp [postCompletionRepeated]⟩
    simp [postCompletionRepeated, htag, Nat.zero_div]
  | succ m ih =>
    obtain ⟨ihq, ihtag, ihlist⟩ := ih
    refine ⟨?_, ?_, ?_⟩
    · simp only [postCompletionRepeated, postCompletion, ihq]
      simp [Nat.mod_add_mod]
    · simp only [postCompletionRepeated, postCompletion, ihq, ihtag]
      rw [lookupPhaseTag_setPhaseTag_self]
      simp only [Nat.mod_add_mod]
      exact phase_flip_parity qsz m
    · simp only [postCompletionRepeated, postCompletion, ihq, ihtag, ihlist]
      rw [List.range_succ, List.map_append]
      simp only [Nat.mod_add_mod, List.map_cons, List.map_nil]
      rw [phase_flip_parity qsz m]

/-! ### Claim theorems -/

/-- C9: every Identify sub-command leaves both the active and the inactive
namespace maps unchanged — the list payload is computed from a by-value copy
of the selected map, so Identify is read-only with respect to namespace
state. -/
theorem C9_identify_preserves_namespace_maps (c : Controller) (command : NVME_COMMAND) :
    (adminIdentify c command).1.NamespaceIdToActiveNamespace
        = c.NamespaceIdToActiveNamespace
      ∧ (adminIdentify c command).1.NamespaceIdToInactiveNamespace
        = c.NamespaceIdToInactiveNamespace :=
  ⟨rfl, rfl⟩

/-- C1: processing any command drained from a submission queue whose paired
completion queue is valid (whatever the command's identifier or opcode)
posts exactly one completion entry, and that entry bears the command's
identifier and the originating submission-queue id.  The processing function
is total, so no command path escapes as a fault instead of this posting. -/
theorem C1_exactly_one_completion_posted
    (crapiFile : NVME_COMMAND → Option COMPLETION_QUEUE_ENTRY)
    (c : Controller) (sq : Queue) (cmd : NVME_COMMAND) (cq : Queue)
    (hcq : getQueueWithId c.ValidCompletionQueues sq.linkedQueueId = some cq) :
    ∃ e, (processCommandAndPostCompletion crapiFile c sq cmd).2.2 = [(cq.id, e)]
      ∧ e.CID = cmd.CID ∧ e.SQID = sq.id := by
  unfold processCommandAndPostCompletion
  split
  case h_1 heq => rw [heq] at hcq; exact absurd hcq (by simp)
  case h_2 q heq =>
    rw [heq] at hcq
    obtain rfl : q = cq := Option.some.inj hcq
    split
    · exact ⟨_, rfl, rfl, rfl⟩
    · split
      · exact ⟨_, rfl, rfl, rfl⟩
      · exact ⟨_, rfl, rfl, rfl⟩

/-- Witness for C1 at a concrete input: a freshly constructed controller, its
admin submission queue, and a keep-alive command. -/
theorem C1_exactly_one_completion_posted_witness :
    ∃ e, (processCommandAndPostCompletion (fun _ => none) (Controller.construct 2 2)
            (Queue.mk ADMIN_QUEUE_ID 2 0 0 ADMIN_QUEUE_ID)
            (NVME_COMMAND.mk 0x18 7 0 0 0 0 0)).2.2
        = [((Queue.mk ADMIN_QUEUE_ID 2 0 0 0).id, e)]
      ∧ e.CID = (NVME_COMMAND.mk 0x18 7 0 0 0 0 0).CID
      ∧ e.SQID = (Queue.mk ADMIN_QUEUE_ID 2 0 0 ADMIN_QUEUE_ID).id :=
  C1_exactly_one_completion_posted (fun _ => none) (Controller.construct 2 2)
    (Queue.mk ADMIN_QUEUE_ID 2 0 0 ADMIN_QUEUE_ID)
    (NVME_COMMAND.mk 0x18 7 0 0 0 0 0) (Queue.mk ADMIN_QUEUE_ID 2 0 0 0) rfl

/-- C4: every completion posted via postCompletion carries the originating
submission queue's id in its queue-identifier field, that queue's current
head in its queue-head field, and the command's id in its command-identifier
field, whatever the handler left in those fields, and the command's id is
removed from the outstanding set of its submission queue; within command
processing the head so recorded is the post-drain head position. -/
theorem C4_postCompletion_overwrites_fields :
    (∀ (c : Controller) (cq : Queue) (e : COMPLETION_QUEUE_ENTRY)
        (cmd : NVME_COMMAND) (sq : Queue),
      (postCompletion c cq e cmd sq).2.2.SQID = sq.id
      ∧ (postCompletion c cq e cmd sq).2.2.SQHD = sq.head
      ∧ (postCompletion c cq e cmd sq).2.2.CID = cmd.CID
      ∧ cmd.CID ∉ lookupCommandIdentifiers
          (postCompletion c cq e cmd sq).1.SubmissionQueueIdToCommandIdentifiers sq.id)
    ∧ (∀ (crapiFile : NVME_COMMAND → Option COMPLETION_QUEUE_ENTRY)
        (c : Controller) (sq : Queue) (cmd : NVME_COMMAND),
        ∀ p ∈ (processCommandAndPostCompletion crapiFile c sq cmd).2.2,
          p.2.SQHD = (sq.head + 1) % sq.queueSize) := by
  constructor
  · intro c cq e cmd sq
    refine ⟨rfl, rfl, rfl, ?_⟩
    show cmd.CID ∉ lookupCommandIdentifiers
      (eraseCommandIdentifier c.SubmissionQueueIdToCommandIdentifiers sq.id cmd.CID) sq.id
    rw [lookupCommandIdentifiers_erase_self]
    exact notMem_filter_bne_self _ _
  · intro crapiFile c sq cmd p hp
    unfold processCommandAndPostCompletion at hp
    revert hp
    split
    · intro hp; exact absurd hp (by simp)
    · split
      · intro hp
        obtain rfl := List.mem_singleton.mp hp
        rfl
      · split
        · intro hp
          obtain rfl := List.mem_singleton.mp hp
          rfl
        · intro hp
          obtain rfl := List.mem_singleton.mp hp
          rfl

/-- Witness for C4 at a concrete input: the membership-guarded conjunct
applied to the single posting of a keep-alive command on a fresh
controller. -/
theorem C4_postCompletion_overwrites_fields_witness :
    ((0 : Nat), COMPLETION_QUEUE_ENTRY.mk 0 1 0 7 false 0 0).2.SQHD
      = ((Queue.mk ADMIN_QUEUE_ID 2 0 0 ADMIN_QUEUE_ID).head + 1)
          % (Queue.mk ADMIN_QUEUE_ID 2 0 0 ADMIN_QUEUE_ID).queueSize :=
  C4_postCompletion_overwrites_fields.2 (fun _ => none) (Controller.construct 2 2)
    (Queue.mk ADMIN_QUEUE_ID 2 0 0 ADMIN_QUEUE_ID) (NVME_COMMAND.mk 0x18 7 0 0 0 0 0)
    ((0 : Nat), COMPLETION_QUEUE_ENTRY.mk 0 1 0 7 false 0 0) (by decide)

/-- C3: a command whose identifier is still outstanding on its submission
queue is rejected with an error completion (command-id-conflict status,
generic status type) and is not executed — the submission-queue collection,
both namespace maps and the firmware store are untouched; and once a
command's completion has been posted, which removes the identifier from the
queue's outstanding set, the same identifier is accepted again on that
queue. -/
theorem C3_command_identifier_reuse :
    (∀ (crapiFile : NVME_COMMAND → Option COMPLETION_QUEUE_ENTRY)
        (c : Controller) (sq : Queue) (cmd : NVME_COMMAND) (cq : Queue),
      getQueueWithId c.ValidCompletionQueues sq.linkedQueueId = some cq →
      isValidCommandIdentifier c cmd.CID sq.id = false →
      ∃ e, (processCommandAndPostCompletion crapiFile c sq cmd).2.2 = [(cq.id, e)]
        ∧ e.isSuccessful = false ∧ e.SCT = 0 ∧ e.SC = 3
        ∧ (processCommandAndPostCompletion crapiFile c sq cmd).1.ValidSubmissionQueues
            = c.ValidSubmissionQueues
        ∧ (processCommandAndPostCompletion crapiFile c sq cmd).1.NamespaceIdToActiveNamespace
            = c.NamespaceIdToActiveNamespace
        ∧ (processCommandAndPostCompletion crapiFile c sq cmd).1.NamespaceIdToInactiveNamespace
            = c.NamespaceIdToInactiveNamespace
        ∧ (processCommandAndPostCompletion crapiFile c sq cmd).1.FirmwareImageDWordOffsetToData
            = c.FirmwareImageDWordOffsetToData)
    ∧ (∀ (c : Controller) (cq : Queue) (e : COMPLETION_QUEUE_ENTRY)
        (cmd : NVME_COMMAND) (sq : Queue),
      isValidCommandIdentifier (postCompletion c cq e cmd sq).1 cmd.CID sq.id = true) := by
  constructor
  · intro crapiFile c sq cmd cq hcq hdup
    unfold processCommandAndPostCompletion
    split
    case h_1 heq => rw [heq] at hcq; exact absurd hcq (by simp)
    case h_2 q heq =>
      rw [heq] at hcq
      obtain rfl : q = cq := Option.some.inj hcq
      rw [hdup]
      exact ⟨_, rfl, rfl, rfl, rfl, rfl, rfl, rfl, rfl⟩
  · intro c cq e cmd sq
    simp [isValidCommandIdentifier, postCompletion,
      lookupCommandIdentifiers_erase_self, notMem_filter_bne_self]

/-- Witness for C3 at a concrete input: command id 7 is already outstanding
on the admin submission queue, and the duplicate submission is rejected. -/
theorem C3_command_identifier_reuse_witness :
    ∃ e, (processCommandAndPostCompletion (fun _ => none)
            { Controller.construct 2 2 with
                SubmissionQueueIdToCommandIdentifiers := [(0, [7])] }
            (Queue.mk ADMIN_QUEUE_ID 2 0 0 ADMIN_QUEUE_ID)
            (NVME_COMMAND.mk 0x18 7 0 0 0 0 0)).2.2
        = [((Queue.mk ADMIN_QUEUE_ID 2 0 0 0).id, e)]
      ∧ e.isSuccessful = false ∧ e.SCT = 0 ∧ e.SC = 3
      ∧ (processCommandAndPostCompletion (fun _ => none)
            { Controller.construct 2 2 with
                SubmissionQueueIdToCommandIdentifiers := [(0, [7])] }
            (Queue.mk ADMIN_QUEUE_ID 2 0 0 ADMIN_QUEUE_ID)
            (NVME_COMMAND.mk 0x18 7 0 0 0 0 0)).1.ValidSubmissionQueues
          = ({ Controller.construct 2 2 with
                SubmissionQueueIdToCommandIdentifiers :=
                  [(0, [7])] } : Controller).ValidSubmissionQueues
      ∧ (processCommandAndPostCompletion (fun _ => none)
            { Controller.construct 2 2 with
                SubmissionQueueIdToCommandIdentifiers := [(0, [7])] }
            (Queue.mk ADMIN_QUEUE_ID 2 0 0 ADMIN_QUEUE_ID)
            (NVME_COMMAND.mk 0x18 7 0 0 0 0 0)).1.NamespaceIdToActiveNamespace
          = ({ Controller.construct 2 2 with
                SubmissionQueueIdToCommandIdentifiers :=
                  [(0, [7])] } : Controller).NamespaceIdToActiveNamespace
      ∧ (processCommandAndPostCompletion (fun _ => none)
            { Controller.construct 2 2 with
                SubmissionQueueIdToCommandIdentifiers := [(0, [7])] }
            (Queue.mk ADMIN_QUEUE_ID 2 0 0 ADMIN_QUEUE_ID)
            (NVME_COMMAND.mk 0x18 7 0 0 0 0 0)).1.NamespaceIdToInactiveNamespace
          = ({ Controller.construct 2 2 with
                SubmissionQueueIdToCommandIdentifiers :=
                  [(0, [7])] } : Controller).NamespaceIdToInactiveNamespace
      ∧ (processCommandAndPostCompletion (fun _ => none)
            { Controller.construct 2 2 with
                SubmissionQueueIdToCommandIdentifiers := [(0, [7])] }
            (Queue.mk ADMIN_QUEUE_ID 2 0 0 ADMIN_QUEUE_ID)
            (NVME_COMMAND.mk 0x18 7 0 0 0 0 0)).1.FirmwareImageDWordOffsetToData
          = ({ Controller.construct 2 2 with
                SubmissionQueueIdToCommandIdentifiers :=
                  [(0, [7])] } : Controller).FirmwareImageDWordOffsetToData :=
  C3_command_identifier_reuse.1 (fun _ => none)
    { Controller.construct 2 2 with
        SubmissionQueueIdToCommandIdentifiers := [(0, [7])] }
    (Queue.mk ADMIN_QUEUE_ID 2 0 0 ADMIN_QUEUE_ID)
    (NVME_COMMAND.mk 0x18 7 0 0 0 0 0) (Queue.mk ADMIN_QUEUE_ID 2 0 0 0)
    rfl (by decide)

/-- C5: commands on submission queue 0 dispatch through the admin opcode
table and all others through the NVM opcode table; an opcode absent from the
applicable table yields the invalid-command-opcode completion status (status
code 1, generic status type) and leaves the controller state — queues,
command-identifier sets, namespace maps and the firmware store — entirely
unchanged, the dispatch returning the controller state as-is. -/
theorem C5_dispatch_tables :
    (∀ (c : Controller) (cmd : NVME_COMMAND),
      AdminCommandCallers.find? (fun p => p.1 == cmd.OPC) = none →
      dispatchBuiltin c ADMIN_QUEUE_ID cmd = (c, makeStatus 0 1))
    ∧ (∀ (c : Controller) (sqid : Nat) (cmd : NVME_COMMAND),
      sqid ≠ ADMIN_QUEUE_ID →
      NVMCommandCallers.find? (fun p => p.1 == cmd.OPC) = none →
      dispatchBuiltin c sqid cmd = (c, makeStatus 0 1))
    ∧ (∀ (c : Controller) (cmd : NVME_COMMAND) (caller : Nat × NVMeCaller),
      AdminCommandCallers.find? (fun p => p.1 == cmd.OPC) = some caller →
      dispatchBuiltin c ADMIN_QUEUE_ID cmd = caller.2 c cmd)
    ∧ (∀ (c : Controller) (sqid : Nat) (cmd : NVME_COMMAND) (caller : Nat × NVMeCaller),
      sqid ≠ ADMIN_QUEUE_ID →
      NVMCommandCallers.find? (fun p => p.1 == cmd.OPC) = some caller →
      dispatchBuiltin c sqid cmd = caller.2 c cmd) := by
  refine ⟨?_, ?_, ?_, ?_⟩
  · intro c cmd hnone
    unfold dispatchBuiltin
    simp [hnone]
  · intro c sqid cmd hsq hnone
    unfold dispatchBuiltin
    have hb : (sqid == ADMIN_QUEUE_ID) = false := by
      simpa using hsq
    simp [hb, hnone]
  · intro c cmd caller hsome
    unfold dispatchBuiltin
    simp [hsome]
  · intro c sqid cmd caller hsq hsome
    unfold dispatchBuiltin
    have hb : (sqid == ADMIN_QUEUE_ID) = false := by
      simpa using hsq
    simp [hb, hsome]

/-- Witness for C5 at a concrete input: the Identify opcode is absent from
the NVM table, so on submission queue 1 it yields the invalid-opcode status
with the state unchanged. -/
theorem C5_dispatch_tables_witness :
    dispatchBuiltin (Controller.construct 2 2) 1 (NVME_COMMAND.mk 0x06 1 0 0 0 0 0)
      = (Controller.construct 2 2, makeStatus 0 1) :=
  C5_dispatch_tables.2.1 (Controller.construct 2 2) 1 (NVME_COMMAND.mk 0x06 1 0 0 0 0 0)
    (by decide) rfl

/-- C10: with no command-response file path configured (the construction
default, unless setCommandResponseFilePath is called) the CRAPI-F hook
declines every command, and command processing coincides with the
hook-free processing for every command — the controller with the hook
disabled refines the one without the hook. -/
theorem C10_crapi_hook_disabled_equivalence
    (crapiFile : NVME_COMMAND → Option COMPLETION_QUEUE_ENTRY)
    (c : Controller) (h : c.CommandResponseApiFilePath = "") :
    (∀ (cmd : NVME_COMMAND) (sqid : Nat),
      handledByCommandResponseApiFile crapiFile c cmd sqid = none)
    ∧ (∀ (sq : Queue) (cmd : NVME_COMMAND),
      processCommandAndPostCompletion crapiFile c sq cmd
        = processCommandWithoutCommandResponseApi c sq cmd)
    ∧ (∀ a b : Nat, (Controller.construct a b).CommandResponseApiFilePath = "") := by
  refine ⟨?_, ?_, fun a b => rfl⟩
  · intro cmd sqid
    simp [handledByCommandResponseApiFile, h]
  · intro sq cmd
    simp only [processCommandAndPostCompletion, processCommandWithoutCommandResponseApi,
      handledByCommandResponseApiFile, h, beq_self_eq_true, if_true]

/-- Witness for C10 at a concrete input: a freshly constructed controller
(with its default empty path) processes a keep-alive command identically
with and without the hook, for an arbitrary concrete external responder. -/
theorem C10_crapi_hook_disabled_equivalence_witness :
    processCommandAndPostCompletion (fun _ => some (makeStatus 1 1))
        (Controller.construct 2 2) (Queue.mk ADMIN_QUEUE_ID 2 0 0 ADMIN_QUEUE_ID)
        (NVME_COMMAND.mk 0x18 7 0 0 0 0 0)
      = processCommandWithoutCommandResponseApi (Controller.construct 2 2)
        (Queue.mk ADMIN_QUEUE_ID 2 0 0 ADMIN_QUEUE_ID)
        (NVME_COMMAND.mk 0x18 7 0 0 0 0 0) :=
  (C10_crapi_hook_disabled_equivalence (fun _ => some (makeStatus 1 1))
      (Controller.construct 2 2) rfl).2.1
    (Queue.mk ADMIN_QUEUE_ID 2 0 0 ADMIN_QUEUE_ID)
    (NVME_COMMAND.mk 0x18 7 0 0 0 0 0)

/-- C6: a Create I/O Submission Queue command whose requested queue id is
already valid, or exceeds the maximum of 0xFFFF, or whose paired completion
queue id is not currently valid, yields an error completion and changes no
controller state; and after a successful creation, a second creation with
the same queue id fails with an error completion and no state change, the
first queue remaining valid and unaffected. -/
theorem C6_create_submission_queue_failures :
    (∀ (c : Controller) (cmd : NVME_COMMAND),
      ((getQueueWithId c.ValidSubmissionQueues cmd.requestedQueueId).isSome = true
        ∨ cmd.requestedQueueId > MAX_SUBMISSION_QUEUES
        ∨ (getQueueWithId c.ValidCompletionQueues cmd.pairedCompletionQueueId).isSome
            = false) →
      adminCreateIoSubmissionQueue c cmd = (c, makeStatus 1 1))
    ∧ (∀ (c : Controller) (cmd cmd2 : NVME_COMMAND),
      (adminCreateIoSubmissionQueue c cmd).2.isSuccessful = true →
      cmd2.requestedQueueId = cmd.requestedQueueId →
      adminCreateIoSubmissionQueue (adminCreateIoSubmissionQueue c cmd).1 cmd2
          = ((adminCreateIoSubmissionQueue c cmd).1, makeStatus 1 1)
        ∧ getQueueWithId (adminCreateIoSubmissionQueue c cmd).1.ValidSubmissionQueues
            cmd.requestedQueueId
          = some (Queue.mk cmd.requestedQueueId cmd.requestedQueueSize 0 0
              cmd.pairedCompletionQueueId)) := by
  constructor
  · intro c cmd h
    unfold adminCreateIoSubmissionQueue
    rcases h with h | h | h
    · simp [h]
    · simp [h]
    · simp [h]
  · intro c cmd cmd2 hsucc hsame
    have hcond : ((getQueueWithId c.ValidSubmissionQueues cmd.requestedQueueId).isSome
        || decide (cmd.requestedQueueId > MAX_SUBMISSION_QUEUES)
        || !(getQueueWithId c.ValidCompletionQueues
              cmd.pairedCompletionQueueId).isSome) = false := by
      rcases Bool.eq_false_or_eq_true ((getQueueWithId c.ValidSubmissionQueues
          cmd.requestedQueueId).isSome
        || decide (cmd.requestedQueueId > MAX_SUBMISSION_QUEUES)
        || !(getQueueWithId c.ValidCompletionQueues
              cmd.pairedCompletionQueueId).isSome) with h | h
      · exfalso
        simp only [adminCreateIoSubmissionQueue] at hsucc
        rw [if_pos h] at hsucc
        simp [COMPLETION_QUEUE_ENTRY.isSuccessful, makeStatus] at hsucc
      · exact h
    have hnone : getQueueWithId c.ValidSubmissionQueues cmd.requestedQueueId = none := by
      rcases hfind : getQueueWithId c.ValidSubmissionQueues cmd.requestedQueueId with _ | x
      · rfl
      · rw [hfind] at hcond; simp at hcond
    have hc1 : (adminCreateIoSubmissionQueue c cmd).1
        = { c with ValidSubmissionQueues :=
            c.ValidSubmissionQueues
              ++ [Queue.mk cmd.requestedQueueId cmd.requestedQueueSize 0 0
                    cmd.pairedCompletionQueueId] } := by
      simp only [adminCreateIoSubmissionQueue]
      rw [if_neg (by rw [hcond]; exact Bool.false_ne_true)]
    have hfound : getQueueWithId (adminCreateIoSubmissionQueue c cmd).1.ValidSubmissionQueues
        cmd.requestedQueueId
        = some (Queue.mk cmd.requestedQueueId cmd.requestedQueueSize 0 0
            cmd.pairedCompletionQueueId) := by
      rw [hc1]
      exact getQueueWithId_append_singleton_of_none _ _ hnone
    refine ⟨adminCreateIoSubmissionQueue_fails_of_id_valid _ _ ?_, hfound⟩
    rw [hsame, hfound]
    rfl

/-- Witness for C6 at a concrete input: recreating the already-valid admin
submission queue id 0 fails with an error completion and no state change. -/
theorem C6_create_submission_queue_failures_witness :
    adminCreateIoSubmissionQueue (Controller.construct 2 2)
        (NVME_COMMAND.mk 0x01 1 0 0 0 0 0)
      = (Controller.construct 2 2, makeStatus 1 1) :=
  C6_create_submission_queue_failures.1 (Controller.construct 2 2)
    (NVME_COMMAND.mk 0x01 1 0 0 0 0 0) (Or.inl rfl)

/-- C7: deleting a completion queue fails with an error completion and no
state change when its id does not exist or some valid submission queue still
references it; deleting an existing submission queue removes it from the
valid set and clears its command-identifier set (leaving completion queues
untouched); and once the only referencing submission queue is deleted, the
previously referenced completion queue can be deleted successfully. -/
theorem C7_delete_queue_rules :
    (∀ (c : Controller) (cmd : NVME_COMMAND),
      ((getQueueWithId c.ValidCompletionQueues cmd.requestedQueueId).isSome = false
        ∨ c.ValidSubmissionQueues.any
            (fun sq => sq.linkedQueueId == cmd.requestedQueueId) = true) →
      ∃ e, adminDeleteIoCompletionQueue c cmd = (c, e) ∧ e.isSuccessful = false)
    ∧ (∀ (c : Controller) (cmd : NVME_COMMAND),
      (getQueueWithId c.ValidSubmissionQueues cmd.requestedQueueId).isSome = true →
      (adminDeleteIoSubmissionQueue c cmd).2.isSuccessful = true
        ∧ getQueueWithId (adminDeleteIoSubmissionQueue c cmd).1.ValidSubmissionQueues
            cmd.requestedQueueId = none
        ∧ lookupCommandIdentifiers
            (adminDeleteIoSubmissionQueue c cmd).1.SubmissionQueueIdToCommandIdentifiers
            cmd.requestedQueueId = []
        ∧ (adminDeleteIoSubmissionQueue c cmd).1.ValidCompletionQueues
            = c.ValidCompletionQueues)
    ∧ (∀ (c : Controller) (cmdDelSq cmdDelCq : NVME_COMMAND),
      (getQueueWithId c.ValidSubmissionQueues cmdDelSq.requestedQueueId).isSome = true →
      (getQueueWithId c.ValidCompletionQueues cmdDelCq.requestedQueueId).isSome = true →
      (∀ sq ∈ c.ValidSubmissionQueues,
        sq.linkedQueueId = cmdDelCq.requestedQueueId →
        sq.id = cmdDelSq.requestedQueueId) →
      (adminDeleteIoCompletionQueue (adminDeleteIoSubmissionQueue c cmdDelSq).1
          cmdDelCq).2.isSuccessful = true
        ∧ getQueueWithId
            (adminDeleteIoCompletionQueue (adminDeleteIoSubmissionQueue c cmdDelSq).1
              cmdDelCq).1.ValidCompletionQueues
            cmdDelCq.requestedQueueId = none) := by
  refine ⟨?_, ?_, ?_⟩
  · intro c cmd h
    unfold adminDeleteIoCompletionQueue
    rcases hex : (getQueueWithId c.ValidCompletionQueues cmd.requestedQueueId).isSome with _ | _
    · exact ⟨makeStatus 1 1, by simp [hex],
        by simp [COMPLETION_QUEUE_ENTRY.isSuccessful, makeStatus]⟩
    · rcases h with h | h
      · rw [hex] at h; exact absurd h (by simp)
      · exact ⟨makeStatus 1 12, by simp [hex, h],
          by simp [COMPLETION_QUEUE_ENTRY.isSuccessful, makeStatus]⟩
  · intro c cmd h
    unfold adminDeleteIoSubmissionQueue
    rw [if_neg (by rw [h]; simp)]
    exact ⟨rfl, getQueueWithId_filter_ne_self _ _,
      lookupCommandIdentifiers_filter_ne_self _ _, rfl⟩
  · intro c cmdDelSq cmdDelCq hsq hcq href
    have hc1 : (adminDeleteIoSubmissionQueue c cmdDelSq).1
        = { c with
            ValidSubmissionQueues :=
              c.ValidSubmissionQueues.filter (fun q => q.id != cmdDelSq.requestedQueueId)
            SubmissionQueueIdToCommandIdentifiers :=
              c.SubmissionQueueIdToCommandIdentifiers.filter
                (fun p => p.1 != cmdDelSq.requestedQueueId) } := by
      unfold adminDeleteIoSubmissionQueue
      rw [if_neg (by rw [hsq]; simp)]
    have hnoref : ((adminDeleteIoSubmissionQueue c cmdDelSq).1.ValidSubmissionQueues.any
        (fun sq => sq.linkedQueueId == cmdDelCq.requestedQueueId)) = false := by
      rw [hc1]
      rw [List.any_eq_false]
      intro x hx
      simp only [List.mem_filter, bne_iff_ne, ne_eq] at hx
      simp only [beq_iff_eq]
      intro hlink
      exact hx.2 (href x hx.1 hlink)
    rw [hc1] at hnoref ⊢
    unfold adminDeleteIoCompletionQueue
    rw [if_neg (by rw [hcq]; simp), if_neg (by rw [hnoref]; simp)]
    exact ⟨rfl, getQueueWithId_filter_ne_self _ _⟩

/-- Witness for C7 at a concrete input: the spec section 8 scenario with I/O
submission queue 1 paired to completion queue 1 — deleting the submission
queue first and then the completion queue succeeds, removing both. -/
theorem C7_delete_queue_rules_witness :
    (adminDeleteIoCompletionQueue
        (adminDeleteIoSubmissionQueue
          { Controller.construct 2 2 with
              ValidSubmissionQueues :=
                [Queue.mk ADMIN_QUEUE_ID 2 0 0 ADMIN_QUEUE_ID, Queue.mk 1 2 0 0 1]
              ValidCompletionQueues :=
                [Queue.mk ADMIN_QUEUE_ID 2 0 0 0, Queue.mk 1 2 0 0 0] }
          (NVME_COMMAND.mk 0x00 1 0 0 0 1 0)).1
        (NVME_COMMAND.mk 0x04 2 0 0 0 1 0)).2.isSuccessful = true
      ∧ getQueueWithId
          (adminDeleteIoCompletionQueue
            (adminDeleteIoSubmissionQueue
              { Controller.construct 2 2 with
                  ValidSubmissionQueues :=
                    [Queue.mk ADMIN_QUEUE_ID 2 0 0 ADMIN_QUEUE_ID, Queue.mk 1 2 0 0 1]
                  ValidCompletionQueues :=
                    [Queue.mk ADMIN_QUEUE_ID 2 0 0 0, Queue.mk 1 2 0 0 0] }
              (NVME_COMMAND.mk 0x00 1 0 0 0 1 0)).1
            (NVME_COMMAND.mk 0x04 2 0 0 0 1 0)).1.ValidCompletionQueues
          (NVME_COMMAND.mk 0x04 2 0 0 0 1 0).requestedQueueId = none :=
  C7_delete_queue_rules.2.2
    { Controller.construct 2 2 with
        ValidSubmissionQueues :=
          [Queue.mk ADMIN_QUEUE_ID 2 0 0 ADMIN_QUEUE_ID, Queue.mk 1 2 0 0 1]
        ValidCompletionQueues :=
          [Queue.mk ADMIN_QUEUE_ID 2 0 0 0, Queue.mk 1 2 0 0 0] }
    (NVME_COMMAND.mk 0x00 1 0 0 0 1 0) (NVME_COMMAND.mk 0x04 2 0 0 0 1 0)
    rfl rfl (by decide)

/-- C2: a posting on a completion queue toggles the queue's recorded phase
tag exactly when it wraps the tail past the last slot back to slot 0, and
the posted entry's phase bit equals the (possibly just-flipped) recorded
tag; consequently, on a queue of depth D starting at tail 0 with tag false,
after n consecutive postings the recorded tag is n / D mod 2, the tail is
n mod D, and the i-th posted entry (counting from 1) carries phase bit
i / D mod 2, which at each wrap boundary totalPosted = k * D equals
totalPosted / D mod 2. -/
theorem C2_phase_tag_semantics :
    (∀ (c : Controller) (cq : Queue) (e : COMPLETION_QUEUE_ENTRY)
        (cmd : NVME_COMMAND) (sq : Queue),
      ((lookupPhaseTag (postCompletion c cq e cmd sq).1.QueueToPhaseTag cq.id
          = !(lookupPhaseTag c.QueueToPhaseTag cq.id))
        ↔ (cq.tail + 1) % cq.queueSize = 0)
      ∧ (postCompletion c cq e cmd sq).2.2.P
          = lookupPhaseTag (postCompletion c cq e cmd sq).1.QueueToPhaseTag cq.id)
    ∧ (∀ (D n : Nat) (c : Controller) (qid qh ql : Nat) (e : COMPLETION_QUEUE_ENTRY)
        (cmd : NVME_COMMAND) (sq : Queue),
      lookupPhaseTag c.QueueToPhaseTag qid = false →
      lookupPhaseTag
          (postCompletionRepeated c (Queue.mk qid D qh 0 ql) e cmd sq n).1.QueueToPhaseTag
          qid
        = decide (n / D % 2 = 1)
      ∧ (postCompletionRepeated c (Queue.mk qid D qh 0 ql) e cmd sq n).2.1
        = Queue.mk qid D qh (n % D) ql
      ∧ (postCompletionRepeated c (Queue.mk qid D qh 0 ql) e cmd sq n).2.2
        = (List.range n).map (fun i =>
            { e with SQID := sq.id, SQHD := sq.head, CID := cmd.CID,
                     P := decide ((i + 1) / D % 2 = 1) })) := by
  constructor
  · intro c cq e cmd sq
    constructor
    · simp only [postCompletion]
      rw [lookupPhaseTag_setPhaseTag_self]
      by_cases hw : (cq.tail + 1) % cq.queueSize = 0
      · simp [hw]
      · rcases hold : lookupPhaseTag c.QueueToPhaseTag cq.id with _ | _ <;> simp [hw]
    · simp only [postCompletion]
      rw [lookupPhaseTag_setPhaseTag_self]
  · intro D n c qid qh ql e cmd sq htag
    obtain ⟨h1, h2, h3⟩ :=
      postCompletionRepeated_invariant c qid D qh ql e cmd sq n htag
    exact ⟨h2, h1, h3⟩

/-- Witness for C2 at a concrete input: four postings on a depth-2 queue of
a fresh controller leave the recorded phase tag at 4 / 2 mod 2 = 0. -/
theorem C2_phase_tag_semantics_witness :
    lookupPhaseTag
        (postCompletionRepeated (Controller.construct 2 2)
          (Queue.mk ADMIN_QUEUE_ID 2 0 0 0) (makeStatus 0 0)
          (NVME_COMMAND.mk 0x18 7 0 0 0 0 0)
          (Queue.mk ADMIN_QUEUE_ID 2 0 0 ADMIN_QUEUE_ID) 4).1.QueueToPhaseTag
        ADMIN_QUEUE_ID
      = decide (4 / 2 % 2 = 1) :=
  (C2_phase_tag_semantics.2 2 4 (Controller.construct 2 2) ADMIN_QUEUE_ID 0 0
    (makeStatus 0 0) (NVME_COMMAND.mk 0x18 7 0 0 0 0 0)
    (Queue.mk ADMIN_QUEUE_ID 2 0 0 ADMIN_QUEUE_ID) rfl).1

/-- C8: the namespace-list payload built from a namespace map whose keys are
strictly ascending (as a C++ std::map iterates) has exactly the transfer
buffer capacity in 4-byte slots; its leading slots are exactly the namespace
ids greater than the starting id, in ascending order, truncated to the
capacity; every remaining slot is zero; and when no truncation occurs the
emitted identifiers are precisely the map's ids greater than the starting
id. -/
theorem C8_namespace_list_payload (namespaceMap : List (Nat × Namespace))
    (startingNsid listCapacity : Nat)
    (hsorted : (namespaceMap.map Prod.fst).Pairwise (· < ·)) :
    (getNamespaceListFromMap namespaceMap startingNsid listCapacity).length = listCapacity
    ∧ (getNamespaceListFromMap namespaceMap startingNsid listCapacity).take
        (min listCapacity
          (((namespaceMap.map Prod.fst).filter
            (fun nsid => decide (startingNsid < nsid))).length))
      = ((namespaceMap.map Prod.fst).filter
          (fun nsid => decide (startingNsid < nsid))).take listCapacity
    ∧ ((getNamespaceListFromMap namespaceMap startingNsid listCapacity).take
        (min listCapacity
          (((namespaceMap.map Prod.fst).filter
            (fun nsid => decide (startingNsid < nsid))).length))).Pairwise (· < ·)
    ∧ (∀ a ∈ (getNamespaceListFromMap namespaceMap startingNsid listCapacity).drop
        (min listCapacity
          (((namespaceMap.map Prod.fst).filter
            (fun nsid => decide (startingNsid < nsid))).length)), a = 0)
    ∧ (((namespaceMap.map Prod.fst).filter
          (fun nsid => decide (startingNsid < nsid))).length ≤ listCapacity →
        ∀ a, a ∈ (getNamespaceListFromMap namespaceMap startingNsid listCapacity).take
            (min listCapacity
              (((namespaceMap.map Prod.fst).filter
                (fun nsid => decide (startingNsid < nsid))).length))
          ↔ (a ∈ namespaceMap.map Prod.fst ∧ startingNsid < a)) := by
  set ids := (namespaceMap.map Prod.fst).filter (fun nsid => decide (startingNsid < nsid))
    with hids
  have hr : getNamespaceListFromMap namespaceMap startingNsid listCapacity
      = ids.take listCapacity
        ++ List.replicate (listCapacity - (ids.take listCapacity).length) 0 := by
    rw [hids]; rfl
  have hlen : (ids.take listCapacity).length = min listCapacity ids.length :=
    List.length_take _ _
  have hle : (ids.take listCapacity).length ≤ listCapacity := by
    rw [hlen]; exact Nat.min_le_left _ _
  refine ⟨?_, ?_, ?_, ?_, ?_⟩
  · rw [hr, List.length_append, List.length_replicate, Nat.add_sub_cancel' hle]
  · rw [hr, ← hlen, List.take_left]
  · rw [hr, ← hlen, List.take_left]
    exact hsorted.sublist ((List.take_sublist _ _).trans (List.filter_sublist _))
  · intro a ha
    rw [hr, ← hlen, List.drop_left] at ha
    exact List.eq_of_mem_replicate ha
  · intro hsmall a
    have htake : ids.take listCapacity = ids := List.take_of_length_le hsmall
    rw [hr, ← hlen, List.take_left, htake, hids]
    simp [List.mem_filter]

/-- Witness for C8 at a concrete input: the active map with namespace ids 1
and 3, starting id 1 and capacity 4. -/
theorem C8_namespace_list_payload_witness :
    (getNamespaceListFromMap [(1, Namespace.mk 8), (3, Namespace.mk 8)] 1 4).length = 4 :=
  (C8_namespace_list_payload [(1, Namespace.mk 8), (3, Namespace.mk 8)] 1 4
    (by decide)).1

end cnvme
